import Mathlib

/-!
Verification of the ES-and-RTS lighting-control repository.

Two source variants are embedded:

* `Specification.cpp` — a SystemC model: `LampModule::adjust_lamps` maps a
  target color temperature to a (white, yellow) ratio pair by clamped linear
  interpolation and splits the target intensity into two LED currents;
  `ECRL_System::control_logic` clamps the measured lux into a comfort range.

* `AdaptiveDualLED_TCS34725.ino` — the Arduino closed-loop controller:
  `loop()` classifies the ambient reading, dispatches to a Darkness /
  TooDark / TooBright / Comfort branch, rebalances the channel ratio with a
  `while` loop in the downscale branch, and manages a fallback flag.

C/C++ `float` arithmetic is modelled by exact rationals (`ℚ`); Arduino's
`round` macro (half away from zero), the `constrain` macro and C's
float-to-int truncation are modelled explicitly.  The unbounded `while`
loop of the downscale branch is modelled with explicit fuel, returning
`none` when the fuel is exhausted while the guard still holds; termination
of the loop is the statement that some fuel suffices.
-/

/- Core marks the rational-number arithmetic operations `@[irreducible]`,
which blocks elaborator-side evaluation (`decide`, `rfl`) of closed rational
expressions; restoring the default reducibility lets concrete controller
runs evaluate.  This is an elaborator-only setting: the kernel's checking
of every proof is unaffected. -/
set_option allowUnsafeReducibility true in
attribute [semireducible] Rat.inv Rat.mul Rat.add Rat.sub

namespace LightCtl

/-! ### Primitive C/Arduino operations -/

/-- Arduino `constrain(amt, low, high)` macro:
`((amt)<(low)?(low):((amt)>(high)?(high):(amt)))`. -/
def constrain (amt low high : ℤ) : ℤ :=
  if amt < low then low else if amt > high then high else amt

/-- Arduino `round(x)` macro: `(x)>=0 ? (long)((x)+0.5) : (long)((x)-0.5)`,
i.e. rounding half away from zero (the `long` cast truncates toward zero). -/
def cround (x : ℚ) : ℤ :=
  if 0 ≤ x then ⌊x + 1/2⌋ else ⌈x - 1/2⌉

/-- C float-to-int conversion: truncation toward zero. -/
def ftrunc (x : ℚ) : ℤ :=
  if 0 ≤ x then ⌊x⌋ else ⌈x⌉

/-! ### `Specification.cpp` (SystemC variant) -/

/-- `const float lux_to_amps = 0.001;` (line 27). -/
def lux_to_amps : ℚ := 1/1000

/-- `const int warm_temp = 2700;` (line 60, local to `adjust_lamps`). -/
def warm_temp : ℤ := 2700

/-- `const int cool_temp = 6500;` (line 61, local to `adjust_lamps`). -/
def cool_temp : ℤ := 6500

/-- The white/yellow ratio computation of `LampModule::adjust_lamps`
(lines 66-79), with the two temperature limits as parameters (the spec's
`RatioMapper.map(tempK, warm, cool)`; in the source they are the local
constants `warm_temp`/`cool_temp`).  Returns `(white_ratio, yellow_ratio)`. -/
def ratioPair (temp_target warm cool : ℤ) : ℚ × ℚ :=
  if temp_target ≤ warm then
    (0, 1)
  else if temp_target ≥ cool then
    (1, 0)
  else
    (((temp_target - warm : ℤ) : ℚ) / (((cool : ℤ) : ℚ) - ((warm : ℤ) : ℚ)),
     1 - ((temp_target - warm : ℤ) : ℚ) / (((cool : ℤ) : ℚ) - ((warm : ℤ) : ℚ)))

/-- `LampModule::adjust_lamps` (lines 55-88): computes the ratio pair at the
fixed limits and maps intensity to current,
`white_current = white_ratio * total_intensity * lux_to_amps` (same for
yellow).  Returns `(white_current, yellow_current)`. -/
def adjust_lamps (total_intensity : ℚ) (temp_target : ℤ) : ℚ × ℚ :=
  ((ratioPair temp_target warm_temp cool_temp).1 * total_intensity * lux_to_amps,
   (ratioPair temp_target warm_temp cool_temp).2 * total_intensity * lux_to_amps)

/-- The lux-clamping logic of `ECRL_System::control_logic` (lines 115-122),
with the bounds as parameters (the spec's
`IntensityClamp.clamp(measuredLux, Lmin, Lmax)`; in the source they are the
locals `min_lux = 200`, `max_lux = 1300`). -/
def desired_lux (measured_lux min_lux max_lux : ℚ) : ℚ :=
  if measured_lux < min_lux then min_lux
  else if measured_lux > max_lux then max_lux
  else measured_lux

/-- In every branch of `ratioPair` the two ratios sum to `1`. -/
theorem ratioPair_sum_one (t warm cool : ℤ) :
    (ratioPair t warm cool).1 + (ratioPair t warm cool).2 = 1 := by
  unfold ratioPair
  split
  · norm_num
  · split
    · norm_num
    · simp only
      ring

/-- Claim C5: `ratioPair` (the spec's `RatioMapper.map`) returns `(0, 1)` at or
below the warm limit, `(1, 0)` at or above the cool limit, and otherwise the
interpolated pair `(factor, 1 − factor)`; the two components always sum to
`1`.  At the worked examples with `warm = 2700`, `cool = 6500`:
`map 2700 = (0, 1)`, `map 6500 = (1, 0)`, `map 1500 = (0, 1)`, but
`map 4500 = (9/19, 10/19)`, not `(0.5, 0.5)` as the claim states (the
midpoint of the limits is 4600, not 4500). -/
theorem c5_ratioPair_spec (t warm cool : ℤ) (h : warm < cool) :
    (t ≤ warm → ratioPair t warm cool = (0, 1)) ∧
    (t ≥ cool → ratioPair t warm cool = (1, 0)) ∧
    (warm < t → t < cool →
      ratioPair t warm cool =
        (((t - warm : ℤ) : ℚ) / (((cool : ℤ) : ℚ) - ((warm : ℤ) : ℚ)),
         1 - ((t - warm : ℤ) : ℚ) / (((cool : ℤ) : ℚ) - ((warm : ℤ) : ℚ)))) ∧
    (ratioPair t warm cool).1 + (ratioPair t warm cool).2 = 1 ∧
    ratioPair 4500 2700 6500 = (9/19, 10/19) ∧
    ratioPair 2700 2700 6500 = (0, 1) ∧
    ratioPair 6500 2700 6500 = (1, 0) ∧
    ratioPair 1500 2700 6500 = (0, 1) := by
  refine ⟨?_, ?_, ?_, ratioPair_sum_one t warm cool, ?_, ?_, ?_, ?_⟩
  · intro ht
    unfold ratioPair
    rw [if_pos ht]
  · intro ht
    unfold ratioPair
    rw [if_neg (by omega), if_pos ht]
  · intro h1 h2
    unfold ratioPair
    rw [if_neg (by omega), if_neg (by omega)]
  · unfold ratioPair
    norm_num
  · unfold ratioPair
    norm_num
  · unfold ratioPair
    norm_num
  · unfold ratioPair
    norm_num

/-- Witness for C5 at `t = 4500`, `warm = 2700`, `cool = 6500`. -/
theorem c5_ratioPair_spec_witness :
    ratioPair 4500 2700 6500 = (9/19, 10/19) :=
  (c5_ratioPair_spec 4500 2700 6500 (by norm_num)).2.2.2.2.1

/-- Counterexample to claim C5: The claim's worked example is false on the code:
`ratioPair 4500 2700 6500 = (9/19, 10/19) ≠ (0.5, 0.5)` (the interpolation
factor at 4500 K is `1800/3800 = 9/19 ≈ 0.474`). -/
theorem c5_map_4500_ne_half : ratioPair 4500 2700 6500 ≠ (1/2, 1/2) := by
  unfold ratioPair
  norm_num

/-- Claim C6: `desired_lux` (the spec's `IntensityClamp.clamp`) is the identity
inside `[Lmin, Lmax]` and saturates at the violated bound outside; at the
worked examples, `clamp 50 150 1000 = 150`, `clamp 5000 150 1000 = 1000`,
`clamp 500 150 1000 = 500`. -/
theorem c6_desired_lux_spec (m lo hi : ℚ) (h : lo < hi) :
    (lo ≤ m → m ≤ hi → desired_lux m lo hi = m) ∧
    (m < lo → desired_lux m lo hi = lo) ∧
    (m > hi → desired_lux m lo hi = hi) ∧
    desired_lux 50 150 1000 = 150 ∧
    desired_lux 5000 150 1000 = 1000 ∧
    desired_lux 500 150 1000 = 500 := by
  refine ⟨?_, ?_, ?_, ?_, ?_, ?_⟩
  · intro h1 h2
    unfold desired_lux
    rw [if_neg (by linarith), if_neg (by linarith)]
  · intro h1
    unfold desired_lux
    rw [if_pos h1]
  · intro h1
    unfold desired_lux
    rw [if_neg (by linarith), if_pos h1]
  · unfold desired_lux
    norm_num
  · unfold desired_lux
    norm_num
  · unfold desired_lux
    norm_num

/-- Witness for C6 at `m = 50`, `lo = 150`, `hi = 1000`. -/
theorem c6_desired_lux_spec_witness :
    desired_lux 50 150 1000 = 150 :=
  (c6_desired_lux_spec 50 150 1000 (by norm_num)).2.2.2.1

/-- Claim C10: The two currents emitted by `adjust_lamps` partition the total
exactly: `white_current + yellow_current = lux_to_amps * target_lux`, in
every branch of the interpolation. -/
theorem c10_currents_sum (lux : ℚ) (temp : ℤ) :
    (adjust_lamps lux temp).1 + (adjust_lamps lux temp).2 =
      lux_to_amps * lux := by
  unfold adjust_lamps
  have h := ratioPair_sum_one temp warm_temp cool_temp
  calc (ratioPair temp warm_temp cool_temp).1 * lux * lux_to_amps +
        (ratioPair temp warm_temp cool_temp).2 * lux * lux_to_amps
      = ((ratioPair temp warm_temp cool_temp).1 +
          (ratioPair temp warm_temp cool_temp).2) * lux * lux_to_amps := by ring
    _ = lux_to_amps * lux := by rw [h]; ring

/-! ### `AdaptiveDualLED_TCS34725.ino` (Arduino controller)

System settings (lines 22-27) and the hysteresis constant (line 84). -/

/-- `const float targetYellowRatio = 0.6;` -/
def targetYellowRatio : ℚ := 6/10

/-- `const float L_min = 150.0;` -/
def L_min : ℚ := 150

/-- `const float L_max = 1000.0;` -/
def L_max : ℚ := 1000

/-- `const int maxLEDIntensity = 255;` -/
def maxLEDIntensity : ℤ := 255

/-- `const int default_k = 50;` -/
def default_k : ℤ := 50

/-- `const float hysteresis = 2.0;` (line 84, local to `loop`). -/
def hysteresis : ℚ := 2

/-- `float scalingFactor = 0.9;` (line 108, local to the downscale branch). -/
def scalingFactor : ℚ := 9/10

/-- One raw sensor sample `r, g, b, c` (`uint16_t` from `tcs.getRawData`). -/
structure AmbientReading where
  r : ℕ
  g : ℕ
  b : ℕ
  c : ℕ
deriving DecidableEq

/-- The controller's state memory (lines 30-32): `prevYellowLED`,
`prevWhiteLED` (`int`) and `inFallbackMode` (`bool`). -/
structure ControllerState where
  prevYellowLED : ℤ
  prevWhiteLED : ℤ
  inFallbackMode : Bool
deriving DecidableEq

/-- The pair written to the PWM pins at the end of one `loop()` iteration
(lines 151-152). -/
structure DriveCommand where
  whiteLevel : ℤ
  yellowLevel : ℤ
deriving DecidableEq

/-- `float ambientWhite = (float)min(r, min(g, b));` (line 54). -/
def ambientWhite (rd : AmbientReading) : ℚ :=
  ((min rd.r (min rd.g rd.b) : ℕ) : ℚ)

/-- `float ambientYellow = ((float)r + (float)g) / 2.0;` (line 55). -/
def ambientYellow (rd : AmbientReading) : ℚ :=
  (((rd.r : ℕ) : ℚ) + ((rd.g : ℕ) : ℚ)) / 2

/-- `float YOI = (float)prevYellowLED + ambientYellow;` (line 58). -/
def yoIntensity (st : ControllerState) (rd : AmbientReading) : ℚ :=
  (st.prevYellowLED : ℚ) + ambientYellow rd

/-- `float WOI = (float)prevWhiteLED + ambientWhite;` (line 59). -/
def woIntensity (st : ControllerState) (rd : AmbientReading) : ℚ :=
  (st.prevWhiteLED : ℚ) + ambientWhite rd

/-- `float total = YOI + WOI;` (line 60). -/
def totalIntensity (st : ControllerState) (rd : AmbientReading) : ℚ :=
  yoIntensity st rd + woIntensity st rd

/-- `float currentYellowRatio = (total > 0) ? YOI / total : -1;` (line 62). -/
def currentYellowRatio (st : ControllerState) (rd : AmbientReading) : ℚ :=
  if totalIntensity st rd > 0 then yoIntensity st rd / totalIntensity st rd
  else -1

/-- `float ambientTotal = ambientYellow + ambientWhite;` (line 63). -/
def ambientTotal (rd : AmbientReading) : ℚ :=
  ambientYellow rd + ambientWhite rd

/-- `bool isTooDark = ambientTotal < (L_min - hysteresis);` (line 85). -/
def isTooDark (rd : AmbientReading) : Prop :=
  ambientTotal rd < L_min - hysteresis

instance (rd : AmbientReading) : Decidable (isTooDark rd) :=
  inferInstanceAs (Decidable (ambientTotal rd < L_min - hysteresis))

/-- `bool isTooBright = ambientTotal > (L_max + hysteresis);` (line 86). -/
def isTooBright (rd : AmbientReading) : Prop :=
  ambientTotal rd > L_max + hysteresis

instance (rd : AmbientReading) : Decidable (isTooBright rd) :=
  inferInstanceAs (Decidable (ambientTotal rd > L_max + hysteresis))

/-- The ratio recomputed inside the downscale branch (lines 113-114 and
122-123): `(newYellowLED + newWhiteLED > 0) ?
(float)newYellowLED / (newYellowLED + newWhiteLED) : -1`. -/
def loopRatio (y w : ℤ) : ℚ :=
  if y + w > 0 then (y : ℚ) / ((y + w : ℤ) : ℚ) else -1

/-- The `while` loop of the downscale branch (lines 116-124), with explicit
fuel: while `ratio` is outside `[0.58, 0.62]`, rescale `newYellowLED` when
`ratio > 0.62` and `newWhiteLED` when `ratio < 0.58`, then recompute;
`none` means the fuel ran out with the guard still true. -/
def rebalance : ℕ → ℤ → ℤ → Option (ℤ × ℤ)
  | 0, y, w =>
    if loopRatio y w < 58/100 ∨ loopRatio y w > 62/100 then none
    else some (y, w)
  | fuel + 1, y, w =>
    if loopRatio y w < 58/100 ∨ loopRatio y w > 62/100 then
      if loopRatio y w > 62/100 then
        rebalance fuel (constrain (cround ((y : ℚ) * scalingFactor)) 0 maxLEDIntensity) w
      else
        rebalance fuel y (constrain (cround ((w : ℚ) * scalingFactor)) 0 maxLEDIntensity)
    else some (y, w)

/-- The Darkness-branch yellow level (line 99):
`newYellowLED = default_k * targetYellowRatio;` (float product truncated by
the int assignment). -/
def darknessYellow : ℤ := ftrunc ((default_k : ℚ) * targetYellowRatio)

/-- The Darkness-branch white level (line 100):
`newWhiteLED = default_k * (1.0 - targetYellowRatio);`. -/
def darknessWhite : ℤ := ftrunc ((default_k : ℚ) * (1 - targetYellowRatio))

/-- The cutoff rule (lines 127-128): two sequential tests,
`if (newYellowLED <= 5) { both = 0 }` then `if (newWhiteLED <= 5) { both = 0 }`.
When the first test fires, the second sees `newWhiteLED = 0 ≤ 5` and
rewrites both with `0` again, so the composition is this nested
conditional on the incoming pair. -/
def applyCutoff (p : ℤ × ℤ) : ℤ × ℤ :=
  if p.1 ≤ 5 then (0, 0) else if p.2 ≤ 5 then (0, 0) else p

/-- The downscale branch (lines 104-129): scale both channels by
`scalingFactor` under `constrain` (lines 109-110), run the rebalancing loop
(lines 113-124), then apply the cutoff rule (lines 127-128). -/
def downscaleBranch (fuel : ℕ) (st : ControllerState) : Option (ℤ × ℤ) :=
  (rebalance fuel
      (constrain (cround ((st.prevYellowLED : ℚ) * scalingFactor)) 0 maxLEDIntensity)
      (constrain (cround ((st.prevWhiteLED : ℚ) * scalingFactor)) 0 maxLEDIntensity)).map
    applyCutoff

/-- The Comfort branch (lines 131-148), returning
`(newYellowLED, newWhiteLED)`: a single proportional nudge of one channel
when `currentYellowRatio` is outside `[0.58, 0.62]`, otherwise no change. -/
def comfortBranch (st : ControllerState) (ratio : ℚ) : ℤ × ℤ :=
  if ratio < 58/100 then
    (constrain (st.prevYellowLED +
        cround ((1/10) * (6/10 - ratio) * (maxLEDIntensity : ℚ))) 0 maxLEDIntensity,
     st.prevWhiteLED)
  else if ratio > 62/100 then
    (st.prevYellowLED,
     constrain (st.prevWhiteLED +
        cround ((1/10) * (ratio - 6/10) * (maxLEDIntensity : ℚ))) 0 maxLEDIntensity)
  else
    (st.prevYellowLED, st.prevWhiteLED)

/-- The common tail of `loop()` (lines 150-166): emit the command, persist
the new levels, and clear `inFallbackMode` when
`!isTooDark && currentYellowRatio != -1`. -/
def finishStep (rd : AmbientReading) (st : ControllerState) (newY newW : ℤ)
    (fb : Bool) : DriveCommand × ControllerState :=
  if ¬ isTooDark rd ∧ currentYellowRatio st rd ≠ -1 then
    (⟨newW, newY⟩, ⟨newY, newW, false⟩)
  else
    (⟨newW, newY⟩, ⟨newY, newW, fb⟩)

/-- One `loop()` iteration (lines 49-168) as a pure step function.
Classification (lines 83-94): the fallback override
`if (inFallbackMode && isTooBright) { isTooBright = false; isComfortable = true; }`
turns the effective too-bright flag into
`isTooBright ∧ inFallbackMode = false`.  Dispatch (lines 96-148): Darkness
when `currentYellowRatio == -1` (which also sets `inFallbackMode = true`),
downscale when too dark or effectively too bright, otherwise Comfort.
`fuel` bounds the downscale rebalancing loop; `none` reports that the loop
did not finish within `fuel` iterations. -/
def step (fuel : ℕ) (rd : AmbientReading) (st : ControllerState) :
    Option (DriveCommand × ControllerState) :=
  if currentYellowRatio st rd = -1 then
    some (finishStep rd st darknessYellow darknessWhite true)
  else if isTooDark rd ∨ (isTooBright rd ∧ st.inFallbackMode = false) then
    (downscaleBranch fuel st).map
      (fun p => finishStep rd st p.1 p.2 st.inFallbackMode)
  else
    some (finishStep rd st (comfortBranch st (currentYellowRatio st rd)).1
      (comfortBranch st (currentYellowRatio st rd)).2 st.inFallbackMode)

/-- Iterating `step` over a list of readings, threading the state and
collecting the emitted commands; `none` as soon as one cycle's rebalancing
loop fails to finish within `fuel`. -/
def runSteps (fuel : ℕ) : List AmbientReading → ControllerState →
    Option (List DriveCommand × ControllerState)
  | [], st => some ([], st)
  | rd :: rds, st =>
    match step fuel rd st with
    | none => none
    | some (c, st') =>
      match runSteps fuel rds st' with
      | none => none
      | some (cs, stf) => some (c :: cs, stf)

/-- Both stored channel levels lie in `[0, maxLEDIntensity]`. -/
def stateInRange (st : ControllerState) : Prop :=
  0 ≤ st.prevYellowLED ∧ st.prevYellowLED ≤ maxLEDIntensity ∧
  0 ≤ st.prevWhiteLED ∧ st.prevWhiteLED ≤ maxLEDIntensity

instance (st : ControllerState) : Decidable (stateInRange st) :=
  inferInstanceAs (Decidable (_ ∧ _ ∧ _ ∧ _))

/-- Both command levels lie in `[0, maxLEDIntensity]`. -/
def cmdInRange (c : DriveCommand) : Prop :=
  0 ≤ c.whiteLevel ∧ c.whiteLevel ≤ maxLEDIntensity ∧
  0 ≤ c.yellowLevel ∧ c.yellowLevel ≤ maxLEDIntensity

instance (c : DriveCommand) : Decidable (cmdInRange c) :=
  inferInstanceAs (Decidable (_ ∧ _ ∧ _ ∧ _))

/-! ### Helper lemmas about the controller -/

theorem constrain_mem (v : ℤ) :
    0 ≤ constrain v 0 maxLEDIntensity ∧ constrain v 0 maxLEDIntensity ≤ maxLEDIntensity := by
  unfold constrain maxLEDIntensity
  split
  · omega
  · split <;> omega

theorem ambientWhite_nonneg (rd : AmbientReading) : 0 ≤ ambientWhite rd := by
  unfold ambientWhite
  positivity

theorem ambientYellow_nonneg (rd : AmbientReading) : 0 ≤ ambientYellow rd := by
  unfold ambientYellow
  positivity

theorem rebalance_range (fuel : ℕ) :
    ∀ y w y' w', 0 ≤ y → y ≤ maxLEDIntensity → 0 ≤ w → w ≤ maxLEDIntensity →
      rebalance fuel y w = some (y', w') →
      0 ≤ y' ∧ y' ≤ maxLEDIntensity ∧ 0 ≤ w' ∧ w' ≤ maxLEDIntensity := by
  induction fuel with
  | zero =>
    intro y w y' w' h1 h2 h3 h4 h
    unfold rebalance at h
    split at h
    · exact absurd h (by simp)
    · simp only [Option.some.injEq, Prod.mk.injEq] at h
      obtain ⟨rfl, rfl⟩ := h
      exact ⟨h1, h2, h3, h4⟩
  | succ n ih =>
    intro y w y' w' h1 h2 h3 h4 h
    unfold rebalance at h
    split at h
    · split at h
      · exact ih _ w y' w' (constrain_mem _).1 (constrain_mem _).2 h3 h4 h
      · exact ih y _ y' w' h1 h2 (constrain_mem _).1 (constrain_mem _).2 h
    · simp only [Option.some.injEq, Prod.mk.injEq] at h
      obtain ⟨rfl, rfl⟩ := h
      exact ⟨h1, h2, h3, h4⟩

theorem applyCutoff_range (p : ℤ × ℤ)
    (h : 0 ≤ p.1 ∧ p.1 ≤ maxLEDIntensity ∧ 0 ≤ p.2 ∧ p.2 ≤ maxLEDIntensity) :
    0 ≤ (applyCutoff p).1 ∧ (applyCutoff p).1 ≤ maxLEDIntensity ∧
    0 ≤ (applyCutoff p).2 ∧ (applyCutoff p).2 ≤ maxLEDIntensity := by
  obtain ⟨h1, h2, h3, h4⟩ := h
  unfold applyCutoff maxLEDIntensity at *
  split
  · omega
  · split
    · omega
    · exact ⟨h1, h2, h3, h4⟩

theorem downscaleBranch_range (fuel : ℕ) (st : ControllerState) (p : ℤ × ℤ)
    (h : downscaleBranch fuel st = some p) :
    0 ≤ p.1 ∧ p.1 ≤ maxLEDIntensity ∧ 0 ≤ p.2 ∧ p.2 ≤ maxLEDIntensity := by
  unfold downscaleBranch at h
  rw [Option.map_eq_some'] at h
  obtain ⟨q, hq, hf⟩ := h
  rw [← hf]
  exact applyCutoff_range q
    (rebalance_range fuel _ _ q.1 q.2 (constrain_mem _).1 (constrain_mem _).2
      (constrain_mem _).1 (constrain_mem _).2 (by rw [hq]))

theorem comfortBranch_range (st : ControllerState) (ratio : ℚ)
    (h : stateInRange st) :
    0 ≤ (comfortBranch st ratio).1 ∧ (comfortBranch st ratio).1 ≤ maxLEDIntensity ∧
    0 ≤ (comfortBranch st ratio).2 ∧ (comfortBranch st ratio).2 ≤ maxLEDIntensity := by
  obtain ⟨h1, h2, h3, h4⟩ := h
  unfold comfortBranch
  split
  · exact ⟨(constrain_mem _).1, (constrain_mem _).2, h3, h4⟩
  · split
    · exact ⟨h1, h2, (constrain_mem _).1, (constrain_mem _).2⟩
    · exact ⟨h1, h2, h3, h4⟩

theorem finishStep_range (rd : AmbientReading) (st : ControllerState)
    (newY newW : ℤ) (fb : Bool)
    (h1 : 0 ≤ newY) (h2 : newY ≤ maxLEDIntensity)
    (h3 : 0 ≤ newW) (h4 : newW ≤ maxLEDIntensity) :
    cmdInRange (finishStep rd st newY newW fb).1 ∧
    stateInRange (finishStep rd st newY newW fb).2 := by
  unfold finishStep
  split <;> exact ⟨⟨h3, h4, h1, h2⟩, h1, h2, h3, h4⟩

theorem finishStep_cmd (rd : AmbientReading) (st : ControllerState)
    (newY newW : ℤ) (fb : Bool) :
    (finishStep rd st newY newW fb).1 = ⟨newW, newY⟩ := by
  unfold finishStep
  split <;> rfl

theorem finishStep_levels (rd : AmbientReading) (st : ControllerState)
    (newY newW : ℤ) (fb : Bool) :
    (finishStep rd st newY newW fb).2.prevYellowLED = newY ∧
    (finishStep rd st newY newW fb).2.prevWhiteLED = newW := by
  unfold finishStep
  split <;> exact ⟨rfl, rfl⟩

theorem finishStep_fb (rd : AmbientReading) (st : ControllerState)
    (newY newW : ℤ) (fb : Bool) :
    (finishStep rd st newY newW fb).2.inFallbackMode =
      if ¬ isTooDark rd ∧ currentYellowRatio st rd ≠ -1 then false else fb := by
  unfold finishStep
  by_cases hc : ¬ isTooDark rd ∧ currentYellowRatio st rd ≠ -1
  · rw [if_pos hc, if_pos hc]
  · rw [if_neg hc, if_neg hc]

/-- Single-cycle range preservation: from an in-range state, any completed
`step` emits an in-range command and persists an in-range state. -/
theorem step_range (fuel : ℕ) (rd : AmbientReading) (st : ControllerState)
    (hst : stateInRange st) (out : DriveCommand × ControllerState)
    (h : step fuel rd st = some out) :
    cmdInRange out.1 ∧ stateInRange out.2 := by
  unfold step at h
  split at h
  · injection h with h
    rw [← h]
    exact finishStep_range rd st _ _ _ (by decide) (by decide) (by decide) (by decide)
  · split at h
    · rw [Option.map_eq_some'] at h
      obtain ⟨p, hp, hf⟩ := h
      rw [← hf]
      obtain ⟨g1, g2, g3, g4⟩ := downscaleBranch_range fuel st p hp
      exact finishStep_range rd st _ _ _ g1 g2 g3 g4
    · injection h with h
      rw [← h]
      obtain ⟨g1, g2, g3, g4⟩ := comfortBranch_range st (currentYellowRatio st rd) hst
      exact finishStep_range rd st _ _ _ g1 g2 g3 g4

/-! ### Claim theorems for the controller -/

/-- Claim C1: starting from a state whose stored levels lie in
`[0, maxLEDIntensity]`, running `step` over any sequence of ambient
readings emits only commands whose `whiteLevel` and `yellowLevel` lie in
`[0, maxLEDIntensity]`, and the persisted state stays in the same range;
the per-cycle case analysis in `step_range` covers every mode branch
(Darkness, TooDark, TooBright, Comfort). -/
theorem c1_levels_in_range (fuel : ℕ) (rds : List AmbientReading)
    (st : ControllerState) (hst : stateInRange st)
    (out : List DriveCommand × ControllerState)
    (h : runSteps fuel rds st = some out) :
    (∀ c ∈ out.1, cmdInRange c) ∧ stateInRange out.2 := by
  induction rds generalizing st out with
  | nil =>
    unfold runSteps at h
    injection h with h
    rw [← h]
    exact ⟨fun c hc => absurd hc (List.not_mem_nil c), hst⟩
  | cons rd rds ih =>
    unfold runSteps at h
    split at h
    · exact absurd h (by simp)
    · rename_i c st1 hp
      split at h
      · exact absurd h (by simp)
      · rename_i cs stf hq
        injection h with h
        rw [← h]
        obtain ⟨hc1, hst1⟩ := step_range fuel rd st hst (c, st1) hp
        obtain ⟨hcs, hfin⟩ := ih st1 hst1 (cs, stf) hq
        refine ⟨?_, hfin⟩
        intro x hx
        rcases List.mem_cons.mp hx with hx | hx
        · rw [hx]; exact hc1
        · exact hcs x hx

/-- Witness for C1: one darkness cycle from the zero state emits
`(white 20, yellow 30)` and persists `(30, 20)`, all in range. -/
theorem c1_levels_in_range_witness :
    (∀ c ∈ (([⟨20, 30⟩], ⟨30, 20, true⟩) :
        List DriveCommand × ControllerState).1, cmdInRange c) ∧
    stateInRange (([⟨20, 30⟩], ⟨30, 20, true⟩) :
        List DriveCommand × ControllerState).2 :=
  c1_levels_in_range 0 [⟨0, 0, 0, 0⟩] ⟨0, 0, false⟩ (by decide)
    ([⟨20, 30⟩], ⟨30, 20, true⟩) (by decide)

/-- Claim C4: when the combined total intensity is `0`, the ratio takes the
sentinel `-1` and the Darkness branch runs: the emitted command is
`(default_k * targetYellowRatio, default_k * (1 - targetYellowRatio))` as
yellow/white, and `inFallbackMode` is `true` afterwards — defined
behavior, not an error (the fallback-exit check cannot clear the flag
because the ratio is the sentinel). -/
theorem c4_darkness_fallback (fuel : ℕ) (rd : AmbientReading)
    (st : ControllerState) (htotal : totalIntensity st rd = 0) :
    currentYellowRatio st rd = -1 ∧
    step fuel rd st =
      some (⟨darknessWhite, darknessYellow⟩,
            ⟨darknessYellow, darknessWhite, true⟩) ∧
    (darknessYellow : ℚ) = (default_k : ℚ) * targetYellowRatio ∧
    (darknessWhite : ℚ) = (default_k : ℚ) * (1 - targetYellowRatio) := by
  have hr : currentYellowRatio st rd = -1 := by
    unfold currentYellowRatio
    rw [htotal]
    norm_num
  refine ⟨hr, ?_, by decide, by decide⟩
  unfold step
  rw [if_pos hr]
  unfold finishStep
  rw [if_neg (fun hc => hc.2 hr)]

/-- Witness for C4 at the all-zero reading from the zero state. -/
theorem c4_darkness_fallback_witness :
    currentYellowRatio ⟨0, 0, false⟩ ⟨0, 0, 0, 0⟩ = -1 ∧
    step 0 ⟨0, 0, 0, 0⟩ ⟨0, 0, false⟩ =
      some (⟨darknessWhite, darknessYellow⟩,
            ⟨darknessYellow, darknessWhite, true⟩) ∧
    (darknessYellow : ℚ) = (default_k : ℚ) * targetYellowRatio ∧
    (darknessWhite : ℚ) = (default_k : ℚ) * (1 - targetYellowRatio) :=
  c4_darkness_fallback 0 ⟨0, 0, 0, 0⟩ ⟨0, 0, false⟩ (by decide)

/-- From the state `(0, 0)` the rebalancing loop never terminates: the
ratio is the sentinel `-1 < 0.58`, and rescaling the white channel leaves
`0` at `0`. -/
theorem rebalance_zero_stuck (fuel : ℕ) : rebalance fuel 0 0 = none := by
  induction fuel with
  | zero =>
    unfold rebalance
    rw [if_pos (by decide)]
  | succ n ih =>
    unfold rebalance
    rw [if_pos (by decide), if_neg (by decide)]
    have h0 : constrain (cround (((0 : ℤ) : ℚ) * scalingFactor))
        0 maxLEDIntensity = (0 : ℤ) := by decide
    rw [h0]
    exact ih

/-- Claim C2 (refuted, with the claim's own concrete instance verified):
from previous levels `(0, 0)` — which lie in `[0, maxLEDIntensity]` — and
the reading `r = g = b = 50` (ambient total `100`, classified TooDark,
ratio `1/2 ≠ -1`), the downscale branch's rebalancing loop never
terminates, whatever the iteration bound: after the initial downscale both
channels are `0` and the state is a fixed point of the loop body with the
guard still true.  By contrast the claim's concrete TooBright instance
`prevYellow = 200, prevWhite = 50` does terminate (within 30 iterations),
ending at `(69, 45)` whose ratio `69/114` lies inside `[0.58, 0.62]`. -/
theorem c2_downscale_loop (fuel : ℕ) :
    step fuel ⟨50, 50, 50, 0⟩ ⟨0, 0, false⟩ = none ∧
    step 30 ⟨1004, 1004, 0, 0⟩ ⟨200, 50, false⟩ =
      some (⟨45, 69⟩, ⟨69, 45, false⟩) ∧
    58/100 ≤ loopRatio 69 45 ∧ loopRatio 69 45 ≤ 62/100 := by
  refine ⟨?_, by decide, by decide, by decide⟩
  have hdb : downscaleBranch fuel ⟨0, 0, false⟩ = none := by
    unfold downscaleBranch
    show (rebalance fuel
        (constrain (cround (((0 : ℤ) : ℚ) * scalingFactor)) 0 maxLEDIntensity)
        (constrain (cround (((0 : ℤ) : ℚ) * scalingFactor)) 0 maxLEDIntensity)).map
        applyCutoff = none
    have h0 : constrain (cround (((0 : ℤ) : ℚ) * scalingFactor))
        0 maxLEDIntensity = (0 : ℤ) := by decide
    rw [h0, rebalance_zero_stuck fuel]
    rfl
  unfold step
  rw [if_neg (by decide), if_pos (by decide), hdb]
  rfl

/-- Claim C3: with `inFallbackMode` set and a too-bright reading (and
in-range previous levels, so the ratio is not the darkness sentinel), the
override reclassifies the cycle as comfortable: `step` does not run the
downscale-and-rebalance branch, and its output is exactly what the Comfort
branch computes for that reading and state, with the fallback flag cleared
by the exit rule. -/
theorem c3_fallback_override (fuel : ℕ) (rd : AmbientReading)
    (st : ControllerState)
    (hY : 0 ≤ st.prevYellowLED) (hW : 0 ≤ st.prevWhiteLED)
    (hfb : st.inFallbackMode = true) (hbright : isTooBright rd) :
    step fuel rd st =
      some (⟨(comfortBranch st (currentYellowRatio st rd)).2,
             (comfortBranch st (currentYellowRatio st rd)).1⟩,
            ⟨(comfortBranch st (currentYellowRatio st rd)).1,
             (comfortBranch st (currentYellowRatio st rd)).2, false⟩) := by
  have hb : ambientTotal rd > 1002 := by
    unfold isTooBright L_max hysteresis at hbright
    linarith
  have htot : totalIntensity st rd > 0 := by
    have h1 : totalIntensity st rd =
        ((st.prevYellowLED : ℚ) + (st.prevWhiteLED : ℚ)) + ambientTotal rd := by
      unfold totalIntensity yoIntensity woIntensity ambientTotal
      ring
    have hY' : (0 : ℚ) ≤ (st.prevYellowLED : ℚ) := by exact_mod_cast hY
    have hW' : (0 : ℚ) ≤ (st.prevWhiteLED : ℚ) := by exact_mod_cast hW
    rw [h1]
    linarith
  have hrnn : 0 ≤ currentYellowRatio st rd := by
    unfold currentYellowRatio
    rw [if_pos htot]
    have hY' : (0 : ℚ) ≤ (st.prevYellowLED : ℚ) := by exact_mod_cast hY
    have hamb := ambientYellow_nonneg rd
    have hyo : 0 ≤ yoIntensity st rd := by
      unfold yoIntensity
      linarith
    exact div_nonneg hyo (le_of_lt htot)
  have hrne : currentYellowRatio st rd ≠ -1 := by
    intro hc
    rw [hc] at hrnn
    norm_num at hrnn
  have hnd : ¬ isTooDark rd := by
    unfold isTooDark L_min hysteresis
    intro hc
    linarith
  have hdisp : ¬ (isTooDark rd ∨ (isTooBright rd ∧ st.inFallbackMode = false)) := by
    intro hc
    rcases hc with hc | hc
    · exact hnd hc
    · rw [hfb] at hc
      exact absurd hc.2 (by decide)
  unfold step
  rw [if_neg hrne, if_neg hdisp]
  unfold finishStep
  rw [if_pos ⟨hnd, hrne⟩]

/-- Witness for C3: fallback state `(100, 100, true)` with the too-bright
reading `r = g = 2010` follows the Comfort branch. -/
theorem c3_fallback_override_witness :
    step 0 ⟨2010, 2010, 0, 0⟩ ⟨100, 100, true⟩ =
      some (⟨(comfortBranch ⟨100, 100, true⟩
               (currentYellowRatio ⟨100, 100, true⟩ ⟨2010, 2010, 0, 0⟩)).2,
             (comfortBranch ⟨100, 100, true⟩
               (currentYellowRatio ⟨100, 100, true⟩ ⟨2010, 2010, 0, 0⟩)).1⟩,
            ⟨(comfortBranch ⟨100, 100, true⟩
               (currentYellowRatio ⟨100, 100, true⟩ ⟨2010, 2010, 0, 0⟩)).1,
             (comfortBranch ⟨100, 100, true⟩
               (currentYellowRatio ⟨100, 100, true⟩ ⟨2010, 2010, 0, 0⟩)).2,
             false⟩) :=
  c3_fallback_override 0 ⟨2010, 2010, 0, 0⟩ ⟨100, 100, true⟩
    (by decide) (by decide) rfl (by decide)

/-- Claim C7: after a completed `step`, if the reading was not too dark and
the ratio was not the darkness sentinel then the persisted fallback flag is
`false`; otherwise `step` never clears the flag — if it was set (or the
Darkness branch set it), it is still set. -/
theorem c7_fallback_exit (fuel : ℕ) (rd : AmbientReading)
    (st : ControllerState) (out : DriveCommand × ControllerState)
    (h : step fuel rd st = some out) :
    ((¬ isTooDark rd ∧ currentYellowRatio st rd ≠ -1) →
      out.2.inFallbackMode = false) ∧
    (¬ (¬ isTooDark rd ∧ currentYellowRatio st rd ≠ -1) →
      st.inFallbackMode = true → out.2.inFallbackMode = true) := by
  unfold step at h
  split at h
  · injection h with h
    rw [← h]
    constructor
    · intro hc
      rw [finishStep_fb, if_pos hc]
    · intro hc _
      rw [finishStep_fb, if_neg hc]
  · split at h
    · rw [Option.map_eq_some'] at h
      obtain ⟨p, hp, hf⟩ := h
      rw [← hf]
      constructor
      · intro hc
        rw [finishStep_fb, if_pos hc]
      · intro hc hfb
        rw [finishStep_fb, if_neg hc]
        exact hfb
    · injection h with h
      rw [← h]
      constructor
      · intro hc
        rw [finishStep_fb, if_pos hc]
      · intro hc hfb
        rw [finishStep_fb, if_neg hc]
        exact hfb

/-- Witness for C7: a too-dark cycle from `(10, 10, true)` keeps the
fallback flag set through the downscale branch. -/
theorem c7_fallback_exit_witness :
    ((¬ isTooDark ⟨0, 0, 0, 0⟩ ∧
        currentYellowRatio ⟨10, 10, true⟩ ⟨0, 0, 0, 0⟩ ≠ -1) →
      ((⟨6, 9⟩, ⟨9, 6, true⟩) :
          DriveCommand × ControllerState).2.inFallbackMode = false) ∧
    (¬ (¬ isTooDark ⟨0, 0, 0, 0⟩ ∧
        currentYellowRatio ⟨10, 10, true⟩ ⟨0, 0, 0, 0⟩ ≠ -1) →
      (⟨10, 10, true⟩ : ControllerState).inFallbackMode = true →
      ((⟨6, 9⟩, ⟨9, 6, true⟩) :
          DriveCommand × ControllerState).2.inFallbackMode = true) :=
  c7_fallback_exit 5 ⟨0, 0, 0, 0⟩ ⟨10, 10, true⟩ (⟨6, 9⟩, ⟨9, 6, true⟩)
    (by decide)

/-- Comfort branch with the ratio already inside the band: `step` succeeds
for any fuel, leaves both levels unchanged and clears the fallback flag. -/
theorem comfort_noop (fuel : ℕ) (rd : AmbientReading) (st : ControllerState)
    (hdark : ¬ isTooDark rd) (hbright : ¬ isTooBright rd)
    (hlo : 58/100 ≤ currentYellowRatio st rd)
    (hhi : currentYellowRatio st rd ≤ 62/100) :
    step fuel rd st =
      some (⟨st.prevWhiteLED, st.prevYellowLED⟩,
            ⟨st.prevYellowLED, st.prevWhiteLED, false⟩) := by
  have hrne : currentYellowRatio st rd ≠ -1 := by
    intro hc
    rw [hc] at hlo
    norm_num at hlo
  have hdisp : ¬ (isTooDark rd ∨ (isTooBright rd ∧ st.inFallbackMode = false)) := by
    intro hc
    rcases hc with hc | hc
    · exact hdark hc
    · exact hbright hc.1
  have hcb : comfortBranch st (currentYellowRatio st rd) =
      (st.prevYellowLED, st.prevWhiteLED) := by
    unfold comfortBranch
    rw [if_neg (by linarith), if_neg (by linarith)]
  unfold step
  rw [if_neg hrne, if_neg hdisp, hcb]
  unfold finishStep
  rw [if_pos ⟨hdark, hrne⟩]

/-- Claim C8: with a comfortable reading whose ratio is already inside
`[0.58, 0.62]`, `step` leaves both channel levels unchanged, and the
resulting state is a fixed point: the same reading applied to it returns
the identical command and state, so every subsequent cycle repeats them. -/
theorem c8_comfort_idempotent (fuel : ℕ) (rd : AmbientReading)
    (st : ControllerState)
    (hdark : ¬ isTooDark rd) (hbright : ¬ isTooBright rd)
    (hlo : 58/100 ≤ currentYellowRatio st rd)
    (hhi : currentYellowRatio st rd ≤ 62/100) :
    step fuel rd st =
      some (⟨st.prevWhiteLED, st.prevYellowLED⟩,
            ⟨st.prevYellowLED, st.prevWhiteLED, false⟩) ∧
    step fuel rd ⟨st.prevYellowLED, st.prevWhiteLED, false⟩ =
      some (⟨st.prevWhiteLED, st.prevYellowLED⟩,
            ⟨st.prevYellowLED, st.prevWhiteLED, false⟩) := by
  have hsame : currentYellowRatio ⟨st.prevYellowLED, st.prevWhiteLED, false⟩ rd =
      currentYellowRatio st rd := rfl
  refine ⟨comfort_noop fuel rd st hdark hbright hlo hhi, ?_⟩
  exact comfort_noop fuel rd ⟨st.prevYellowLED, st.prevWhiteLED, false⟩
    hdark hbright (by rw [hsame]; exact hlo) (by rw [hsame]; exact hhi)

/-- Witness for C8: state `(100, 0)` with reading `r = g = b = 200`
(ratio `0.6`) is left unchanged and stays a fixed point. -/
theorem c8_comfort_idempotent_witness :
    step 0 ⟨200, 200, 200, 0⟩ ⟨100, 0, true⟩ =
      some (⟨0, 100⟩, ⟨100, 0, false⟩) ∧
    step 0 ⟨200, 200, 200, 0⟩ ⟨100, 0, false⟩ =
      some (⟨0, 100⟩, ⟨100, 0, false⟩) :=
  c8_comfort_idempotent 0 ⟨200, 200, 200, 0⟩ ⟨100, 0, true⟩
    (by decide) (by decide) (by decide) (by decide)

/-- Claim C9: in the Comfort branch, when the ratio is below the band only
the yellow level changes — the emitted and persisted white level equal the
previous white level, and yellow gets exactly the proportional nudge — and
when the ratio is above the band only the white level changes, yellow
staying exactly the previous yellow level. -/
theorem c9_comfort_frame (fuel : ℕ) (rd : AmbientReading)
    (st : ControllerState)
    (hdark : ¬ isTooDark rd)
    (hnb : ¬ (isTooBright rd ∧ st.inFallbackMode = false))
    (hrne : currentYellowRatio st rd ≠ -1)
    (out : DriveCommand × ControllerState)
    (h : step fuel rd st = some out) :
    (currentYellowRatio st rd < 58/100 →
      out.1.whiteLevel = st.prevWhiteLED ∧
      out.2.prevWhiteLED = st.prevWhiteLED ∧
      out.1.yellowLevel = constrain (st.prevYellowLED +
        cround ((1/10) * (6/10 - currentYellowRatio st rd) *
          (maxLEDIntensity : ℚ))) 0 maxLEDIntensity) ∧
    (currentYellowRatio st rd > 62/100 →
      out.1.yellowLevel = st.prevYellowLED ∧
      out.2.prevYellowLED = st.prevYellowLED ∧
      out.1.whiteLevel = constrain (st.prevWhiteLED +
        cround ((1/10) * (currentYellowRatio st rd - 6/10) *
          (maxLEDIntensity : ℚ))) 0 maxLEDIntensity) := by
  have hdisp : ¬ (isTooDark rd ∨ (isTooBright rd ∧ st.inFallbackMode = false)) := by
    intro hc
    rcases hc with hc | hc
    · exact hdark hc
    · exact hnb hc
  unfold step at h
  rw [if_neg hrne, if_neg hdisp] at h
  injection h with h
  rw [← h]
  constructor
  · intro hlt
    have hcb : comfortBranch st (currentYellowRatio st rd) =
        (constrain (st.prevYellowLED +
          cround ((1/10) * (6/10 - currentYellowRatio st rd) *
            (maxLEDIntensity : ℚ))) 0 maxLEDIntensity,
         st.prevWhiteLED) := by
      unfold comfortBranch
      rw [if_pos hlt]
    refine ⟨?_, ?_, ?_⟩
    · rw [hcb, finishStep_cmd]
    · rw [hcb]
      exact (finishStep_levels rd st _ _ _).2
    · rw [hcb, finishStep_cmd]
  · intro hgt
    have hcb : comfortBranch st (currentYellowRatio st rd) =
        (st.prevYellowLED,
         constrain (st.prevWhiteLED +
          cround ((1/10) * (currentYellowRatio st rd - 6/10) *
            (maxLEDIntensity : ℚ))) 0 maxLEDIntensity) := by
      unfold comfortBranch
      rw [if_neg (by linarith), if_pos hgt]
    refine ⟨?_, ?_, ?_⟩
    · rw [hcb, finishStep_cmd]
    · rw [hcb]
      exact (finishStep_levels rd st _ _ _).1
    · rw [hcb, finishStep_cmd]

/-- Witness for C9: state `(60, 40)` with reading `r = g = b = 200`
(ratio `0.52 < 0.58`): white stays `40`, yellow is nudged to `62`. -/
theorem c9_comfort_frame_witness :
    (currentYellowRatio ⟨60, 40, false⟩ ⟨200, 200, 200, 0⟩ < 58/100 →
      ((⟨40, 62⟩, ⟨62, 40, false⟩) :
          DriveCommand × ControllerState).1.whiteLevel =
        (⟨60, 40, false⟩ : ControllerState).prevWhiteLED ∧
      ((⟨40, 62⟩, ⟨62, 40, false⟩) :
          DriveCommand × ControllerState).2.prevWhiteLED =
        (⟨60, 40, false⟩ : ControllerState).prevWhiteLED ∧
      ((⟨40, 62⟩, ⟨62, 40, false⟩) :
          DriveCommand × ControllerState).1.yellowLevel =
        constrain ((⟨60, 40, false⟩ : ControllerState).prevYellowLED +
          cround ((1/10) * (6/10 -
            currentYellowRatio ⟨60, 40, false⟩ ⟨200, 200, 200, 0⟩) *
            (maxLEDIntensity : ℚ))) 0 maxLEDIntensity) ∧
    (currentYellowRatio ⟨60, 40, false⟩ ⟨200, 200, 200, 0⟩ > 62/100 →
      ((⟨40, 62⟩, ⟨62, 40, false⟩) :
          DriveCommand × ControllerState).1.yellowLevel =
        (⟨60, 40, false⟩ : ControllerState).prevYellowLED ∧
      ((⟨40, 62⟩, ⟨62, 40, false⟩) :
          DriveCommand × ControllerState).2.prevYellowLED =
        (⟨60, 40, false⟩ : ControllerState).prevYellowLED ∧
      ((⟨40, 62⟩, ⟨62, 40, false⟩) :
          DriveCommand × ControllerState).1.whiteLevel =
        constrain ((⟨60, 40, false⟩ : ControllerState).prevWhiteLED +
          cround ((1/10) *
            (currentYellowRatio ⟨60, 40, false⟩ ⟨200, 200, 200, 0⟩ - 6/10) *
            (maxLEDIntensity : ℚ))) 0 maxLEDIntensity) :=
  c9_comfort_frame 0 ⟨200, 200, 200, 0⟩ ⟨60, 40, false⟩
    (by decide) (by decide) (by decide) (⟨40, 62⟩, ⟨62, 40, false⟩)
    (by decide)

end LightCtl
